import Mathlib

/-
  Shallow embedding of the werft CI service, centered on `cmd/run.go` (the
  `run` command that boots the server).  External collaborators (file system,
  JSON decoding, Kubernetes client construction, GitHub app keys, PostgreSQL)
  are modelled as an environment of oracles; `runCmd` records the trace of
  external actions it performs and either fails with the propagated error or
  reaches the serving state.  Components of the repository that are not part
  of `cmd/run.go` (the log cutter, the job store) are modelled from the spec,
  as marked on each definition.
-/

namespace rest

/-- A built Kubernetes client configuration (`rest.Config` handle). -/
structure Config where
  id : Nat
deriving DecidableEq

end rest

namespace executor

/-- Embeds `executor.Config` from `cmd/run.go`: the executor configuration,
holding the Kubernetes namespace jobs run in. -/
structure Config where
  Namespace : String
deriving DecidableEq

/-- A handle to the scheduler-side resources of a constructed executor. -/
structure Handle where
  id : Nat
deriving DecidableEq

/-- The constructed executor: `executor.NewExecutor(execCfg, kubeConfig)`
returns an executor holding the configuration and Kubernetes client
configuration it was given. -/
structure Executor where
  Config : executor.Config
  Kube : rest.Config
  Handle : executor.Handle
deriving DecidableEq

end executor

namespace ghinstallation

/-- A GitHub app installation transport (`ghinstallation.Transport` handle). -/
structure Transport where
  id : Nat
deriving DecidableEq

end ghinstallation

namespace github

/-- Embeds `github.NewClient(&http.Client\x7bTransport: ghtr\x7d)`: a GitHub
client wrapping the installation transport. -/
structure Client where
  Transport : ghinstallation.Transport
deriving DecidableEq

end github

namespace sql

/-- An opened database handle (`*sql.DB`). -/
structure DB where
  id : Nat
deriving DecidableEq

end sql

namespace store

/-- Embeds `store.NewFileLogStore(cfg.Storage.LogStore)`: a file-based log
store rooted at a base path. -/
structure FileLogStore where
  base : String
deriving DecidableEq

/-- Embeds `store.NewSQLJobStore(db)`: a relational job store over an opened
database handle. -/
structure SQLJobStore where
  db : sql.DB
deriving DecidableEq

/-- The two storage backend kinds the spec distinguishes. -/
inductive StorageKind
  | fileBased
  | relational
deriving DecidableEq

/-- Modelled from the spec: the log-storage capability in `pkg/store` (not
under `cmd/`), "pluggable storage backends (file-based vs. relational) are
modeled as a capability interface with two variants". -/
inductive Logs
  | fileBased (s : FileLogStore)
  | relational (db : sql.DB)
deriving DecidableEq

/-- The backend kind a log-store value uses. -/
def Logs.kind : Logs → StorageKind
  | .fileBased _ => .fileBased
  | .relational _ => .relational

/-- Modelled from the spec: the job-storage capability in `pkg/store` (not
under `cmd/`), with a file-based and a relational variant. -/
inductive Jobs
  | fileBased (base : String)
  | relational (s : SQLJobStore)
deriving DecidableEq

/-- The backend kind a job-store value uses. -/
def Jobs.kind : Jobs → StorageKind
  | .fileBased _ => .fileBased
  | .relational _ => .relational

end store

namespace logcutter

/-- A log segment: its name and the lines attached to it. -/
abbrev Segment := String × List String

/-- Modelled from the spec: the boundary marker recognized by the default
cutter (`pkg/logcutter`, not under `cmd/`).  A line of the form
`=== name ===` is a boundary marker opening a segment called `name`; the
length bound keeps the leading and trailing marker text from overlapping. -/
def markerName (l : String) : Option String :=
  let cs := l.data
  if cs.take 4 = ['=', '=', '=', ' '] ∧ cs.drop (cs.length - 4) = [' ', '=', '=', '=']
      ∧ 8 ≤ cs.length then
    some (String.mk ((cs.drop 4).take (cs.length - 8)))
  else
    none

/-- Modelled from the spec: the classification loop of the default cutter.
`cur` is the currently open segment's name, `acc` its lines so far (reversed);
a marker line closes the current segment and opens a new one named from the
marker, any other line attaches to the open segment. -/
def classifyAux (cur : String) (acc : List String) : List String → List Segment
  | [] => [(cur, acc.reverse)]
  | l :: rest =>
    match markerName l with
    | some n => (cur, acc.reverse) :: classifyAux n [] rest
    | none => classifyAux cur (l :: acc) rest

/-- Modelled from the spec: `Classify` of the default cutter.  Lines before
the first boundary marker attach to an implicit `default` segment; boundary
marker lines are stripped, serving only to open segments. -/
def Classify (lines : List String) : List Segment :=
  match lines with
  | [] => []
  | l :: rest =>
    match markerName l with
    | some n => classifyAux n [] rest
    | none => classifyAux "default" [l] rest

/-- A cutter turns a sequence of output lines into named segments. -/
abbrev Cutter := List String → List Segment

/-- Embeds `logcutter.DefaultCutter`, the cutter value `cmd/run.go` passes to
the service; its behavior is `Classify` (modelled from the spec). -/
def DefaultCutter : Cutter := Classify

end logcutter

namespace werft

/-- Embeds `werft.GitHubSetup` as filled in by `cmd/run.go`. -/
structure GitHubSetup where
  WebhookSecret : String
  Client : github.Client

/-- Embeds `werft.Service` as constructed by `cmd/run.go`: the orchestration
service with its stores, executor, cutter, GitHub setup and debug proxy. -/
structure Service where
  Logs : store.Logs
  Jobs : store.Jobs
  Executor : executor.Executor
  Cutter : logcutter.Cutter
  GitHub : GitHubSetup
  DebugProxy : String

/-- Modelled from the spec: the service pipes executor output through the
log cutter it was configured with — its `Cutter` field, no other source. -/
def Service.cutLog (s : Service) (lines : List String) : List logcutter.Segment :=
  s.Cutter lines

end werft

namespace store

/-- Modelled from the spec: the job phases,
`Created, Scheduled, Running, Succeeded, Failed, Aborted`. -/
inductive Phase
  | Created
  | Scheduled
  | Running
  | Succeeded
  | Failed
  | Aborted
deriving DecidableEq

/-- The position of a phase in the order
`Created < Scheduled < Running < terminal`. -/
def Phase.rank : Phase → Nat
  | .Created => 0
  | .Scheduled => 1
  | .Running => 2
  | .Succeeded => 3
  | .Failed => 3
  | .Aborted => 3

/-- Whether a phase is one of the three terminal phases. -/
def Phase.isTerminal : Phase → Bool
  | .Succeeded => true
  | .Failed => true
  | .Aborted => true
  | _ => false

/-- Modelled from the spec: a phase transition violates the monotonic-phase
invariant when it moves backward in the order, or moves away from a terminal
phase (which would make a second terminal phase reachable). -/
def violatesMonotonic (old new : Phase) : Bool :=
  decide (new.rank < old.rank) || (old.isTerminal && !(new == old))

/-- Modelled from the spec: a job record of the job store, with its recorded
phase-transition history (the monotonically increasing transition log). -/
structure Job where
  id : Nat
  name : String
  phase : Phase
  history : List Phase
deriving DecidableEq

/-- Modelled from the spec: the durable state of the job store, one record
per job id. -/
structure JobStoreState where
  jobs : List (Nat × Job)
deriving DecidableEq

/-- Looks up the job record stored under an id. -/
def JobStoreState.get (s : JobStoreState) (id : Nat) : Option Job :=
  (s.jobs.find? (fun p => p.1 == id)).map (fun p => p.2)

/-- Replaces the job record stored under an id. -/
def JobStoreState.set (s : JobStoreState) (id : Nat) (j : Job) : JobStoreState :=
  ⟨s.jobs.map (fun p => if p.1 == id then (id, j) else p)⟩

/-- The result of a status update: applied, rejected as conflicting, or the
job id is unknown. -/
inductive UpdateResult
  | success
  | conflict
  | notFound
deriving DecidableEq

/-- Modelled from the spec: `UpdateStatus(id, phase)` of the job store.  A
transition violating the monotonic-phase invariant is rejected with
`conflict`, leaving the store unchanged; an accepted transition records the
new phase and appends it to the transition history in one step. -/
def UpdateStatus (s : JobStoreState) (id : Nat) (new : Phase) :
    UpdateResult × JobStoreState :=
  match s.get id with
  | none => (.notFound, s)
  | some j =>
    if violatesMonotonic j.phase new then (.conflict, s)
    else (.success, s.set id { j with phase := new, history := j.history ++ [new] })

/-- Applies a sequence of requested status updates for one job id. -/
def runUpdates (s : JobStoreState) (id : Nat) : List Phase → JobStoreState
  | [] => s
  | p :: rest => runUpdates (UpdateStatus s id p).2 id rest

/-- A freshly created store holding one job in phase `Created` with its
history initialized to the creation record. -/
def initialStore (id : Nat) (nm : String) : JobStoreState :=
  ⟨[(id, { id := id, name := nm, phase := Phase.Created,
           history := [Phase.Created] })]⟩

/-- A phase sequence is non-decreasing under the rank order. -/
def monoB : List Phase → Bool
  | a :: b :: t => decide (a.rank ≤ b.rank) && monoB (b :: t)
  | _ => true

/-- Every terminal phase occurring in the sequence is followed only by
itself: no second, distinct terminal phase is ever reached. -/
def termUniqueB : List Phase → Bool
  | [] => true
  | a :: t => (!a.isTerminal || t.all (fun b => b == a)) && termUniqueB t

/-- A phase sequence starting from `a` in which every step passes the
monotonic-phase check. -/
def okFrom : Phase → List Phase → Bool
  | _, [] => true
  | a, b :: t => !violatesMonotonic a b && okFrom b t

/-- The last phase of the non-empty sequence `a :: l`. -/
def lastP (a : Phase) : List Phase → Phase
  | [] => a
  | b :: t => lastP b t

end store

/-- Embeds the `Service` section of `Config` in `cmd/run.go`. -/
structure ServiceConfig where
  WebPort : Int
  GRPCPort : Int
deriving DecidableEq

/-- Embeds the `Storage` section of `Config` in `cmd/run.go`: the log store
path and the job store connection string. -/
structure StorageConfig where
  LogStore : String
  JobStore : String
deriving DecidableEq

/-- Embeds the `Kubernetes` section of `Config` in `cmd/run.go`. -/
structure KubernetesConfig where
  Kubeconfig : String
  Namespace : String
deriving DecidableEq

/-- Embeds the `GitHub` section of `Config` in `cmd/run.go`. -/
structure GitHubConfig where
  WebhookSecret : String
  PrivateKeyPath : String
  InstallationID : Int
  AppID : Int
deriving DecidableEq

/-- Embeds `Config`, the werft server configuration decoded from the JSON
config file. -/
structure Config where
  Service : ServiceConfig
  Storage : StorageConfig
  Kubernetes : KubernetesConfig
  GitHub : GitHubConfig
deriving DecidableEq

/-- The environment of external collaborators `runCmd` calls into, each
modelled as an oracle returning success or a Go error string. -/
structure Env where
  readFile : String → Except String String
  unmarshalConfig : String → Except String Config
  inClusterConfig : Except String rest.Config
  buildConfigFromFlags : String → Except String rest.Config
  newKeyFromFile : Int → Int → String → Except String ghinstallation.Transport
  newFileLogStore : String → Except String store.FileLogStore
  sqlOpen : String → Except String sql.DB
  dbPing : sql.DB → Option String
  newSQLJobStore : sql.DB → Except String store.SQLJobStore
  newExecutor : executor.Config → rest.Config → Except String executor.Handle
  debugWebUIProxy : String

/-- The externally visible actions `runCmd` can perform, in particular the
three that begin serving traffic. -/
inductive RunAction
  | readConfigFile
  | unmarshalConfig
  | kubeInCluster
  | kubeFromFlags
  | githubKey
  | newFileLogStore
  | sqlOpen
  | dbPing
  | newSQLJobStore
  | newExecutor
  | execRun
  | serviceStart
  | serviceStartWeb
  | serviceStartGRPC
deriving DecidableEq

/-- How `runCmd` ends: `badArgCount` when cobra's `ExactArgs(1)` check fails,
`external e` when a collaborator's error `e` is returned, or serving. -/
inductive RunError
  | badArgCount
  | external (e : String)
deriving DecidableEq

/-- The outcome of the run command: an error returned to the caller, or the
service up and serving traffic. -/
inductive RunOutcome
  | error (e : RunError)
  | serving (s : werft.Service)

/-- Embeds lines 83–88 of `cmd/run.go`: the executor namespace is the
configured Kubernetes namespace, defaulted to `"default"` when empty. -/
def execNamespace (cfg : Config) : String :=
  if cfg.Kubernetes.Namespace = "" then "default" else cfg.Kubernetes.Namespace

/-- Embeds lines 64–75 of `cmd/run.go`: the Kubernetes client configuration
comes from the in-cluster environment when no kubeconfig path is configured,
and from the named kubeconfig file otherwise. -/
def kubeConfigResult (env : Env) (cfg : Config) : Except String rest.Config :=
  if cfg.Kubernetes.Kubeconfig = "" then env.inClusterConfig
  else env.buildConfigFromFlags cfg.Kubernetes.Kubeconfig

/-- The action recorded for building the Kubernetes client configuration. -/
def kubeAction (cfg : Config) : RunAction :=
  if cfg.Kubernetes.Kubeconfig = "" then RunAction.kubeInCluster else RunAction.kubeFromFlags

/-- Embeds lines 115–127 of `cmd/run.go`: the service literal, with the log
store in its file-based variant, the job store in its relational variant, the
default cutter passed explicitly, and the debug proxy set only when the flag
is non-empty. -/
def mkService (cfg : Config) (ghtr : ghinstallation.Transport)
    (logStore : store.FileLogStore) (jobStore : store.SQLJobStore)
    (exec : executor.Executor) (debugProxy : String) : werft.Service :=
  let s : werft.Service :=
    { Logs := store.Logs.fileBased logStore
      Jobs := store.Jobs.relational jobStore
      Executor := exec
      Cutter := logcutter.DefaultCutter
      GitHub := { WebhookSecret := cfg.GitHub.WebhookSecret, Client := ⟨ghtr⟩ }
      DebugProxy := "" }
  if debugProxy ≠ "" then { s with DebugProxy := debugProxy } else s

/-- The full action trace of a successful boot, in source order. -/
def successTrace (cfg : Config) : List RunAction :=
  [RunAction.readConfigFile, RunAction.unmarshalConfig, kubeAction cfg, RunAction.githubKey,
   RunAction.newFileLogStore, RunAction.sqlOpen, RunAction.dbPing, RunAction.newSQLJobStore,
   RunAction.newExecutor, RunAction.execRun, RunAction.serviceStart, RunAction.serviceStartWeb,
   RunAction.serviceStartGRPC]

/-- Embeds the `run` command of `cmd/run.go`: config file loading and
decoding, Kubernetes client setup, GitHub app key, stores, executor, and
finally service start — each failing step returning its error immediately.
The returned list is the trace of external actions performed. -/
def runCmd (env : Env) (args : List String) : List RunAction × RunOutcome :=
  match args with
  | [path] =>
    match env.readFile path with
    | .error e => ([RunAction.readConfigFile], .error (.external e))
    | .ok fc =>
      match env.unmarshalConfig fc with
      | .error e => ([RunAction.readConfigFile, RunAction.unmarshalConfig], .error (.external e))
      | .ok cfg =>
        match kubeConfigResult env cfg with
        | .error e =>
          ([RunAction.readConfigFile, RunAction.unmarshalConfig, kubeAction cfg],
           .error (.external e))
        | .ok kubeConfig =>
          match env.newKeyFromFile cfg.GitHub.AppID cfg.GitHub.InstallationID
              cfg.GitHub.PrivateKeyPath with
          | .error e =>
            ([RunAction.readConfigFile, RunAction.unmarshalConfig, kubeAction cfg,
              RunAction.githubKey], .error (.external e))
          | .ok ghtr =>
            let execCfg : executor.Config := { Namespace := execNamespace cfg }
            match env.newFileLogStore cfg.Storage.LogStore with
            | .error e =>
              ([RunAction.readConfigFile, RunAction.unmarshalConfig, kubeAction cfg,
                RunAction.githubKey, RunAction.newFileLogStore], .error (.external e))
            | .ok logStore =>
              match env.sqlOpen cfg.Storage.JobStore with
              | .error e =>
                ([RunAction.readConfigFile, RunAction.unmarshalConfig, kubeAction cfg,
                  RunAction.githubKey, RunAction.newFileLogStore, RunAction.sqlOpen],
                 .error (.external e))
              | .ok db =>
                match env.dbPing db with
                | some e =>
                  ([RunAction.readConfigFile, RunAction.unmarshalConfig, kubeAction cfg,
                    RunAction.githubKey, RunAction.newFileLogStore, RunAction.sqlOpen,
                    RunAction.dbPing], .error (.external e))
                | none =>
                  match env.newSQLJobStore db with
                  | .error e =>
                    ([RunAction.readConfigFile, RunAction.unmarshalConfig, kubeAction cfg,
                      RunAction.githubKey, RunAction.newFileLogStore, RunAction.sqlOpen,
                      RunAction.dbPing, RunAction.newSQLJobStore], .error (.external e))
                  | .ok jobStore =>
                    match env.newExecutor execCfg kubeConfig with
                    | .error e =>
                      ([RunAction.readConfigFile, RunAction.unmarshalConfig, kubeAction cfg,
                        RunAction.githubKey, RunAction.newFileLogStore, RunAction.sqlOpen,
                        RunAction.dbPing, RunAction.newSQLJobStore, RunAction.newExecutor],
                       .error (.external e))
                    | .ok handle =>
                      let exec : executor.Executor :=
                        { Config := execCfg, Kube := kubeConfig, Handle := handle }
                      (successTrace cfg,
                       .serving (mkService cfg ghtr logStore jobStore exec
                         env.debugWebUIProxy))
  | _ => ([], .error .badArgCount)

/-- A concrete configuration used to exercise the boot sequence. -/
def cfg0 : Config :=
  { Service := { WebPort := 8080, GRPCPort := 7777 }
    Storage := { LogStore := "/var/werft/logs", JobStore := "dbname=werft" }
    Kubernetes := { Kubeconfig := "", Namespace := "ci" }
    GitHub := { WebhookSecret := "s3cret", PrivateKeyPath := "/var/werft/app.pem",
                InstallationID := 11, AppID := 7 } }

/-- A concrete environment in which every external collaborator succeeds. -/
def envOK : Env :=
  { readFile := fun _ => .ok "cfg-bytes"
    unmarshalConfig := fun _ => .ok cfg0
    inClusterConfig := .ok ⟨0⟩
    buildConfigFromFlags := fun _ => .ok ⟨1⟩
    newKeyFromFile := fun _ _ _ => .ok ⟨2⟩
    newFileLogStore := fun p => .ok ⟨p⟩
    sqlOpen := fun _ => .ok ⟨3⟩
    dbPing := fun _ => none
    newSQLJobStore := fun db => .ok ⟨db⟩
    newExecutor := fun _ _ => .ok ⟨4⟩
    debugWebUIProxy := "" }

/-- The service value a fully successful boot under `envOK` constructs. -/
def serviceOK : werft.Service :=
  mkService cfg0 ⟨2⟩ ⟨"/var/werft/logs"⟩ ⟨⟨3⟩⟩ ⟨⟨execNamespace cfg0⟩, ⟨0⟩, ⟨4⟩⟩ ""

/-- `envOK` with an unreachable in-cluster Kubernetes environment. -/
def envKubeFail : Env :=
  { envOK with inClusterConfig := .error "unable to load in-cluster configuration" }

/-- `envOK` with an unreadable config file. -/
def envReadFail : Env :=
  { envOK with readFile := fun _ => .error "no such file or directory" }

/-- `envOK` with a config file that does not decode as `Config`. -/
def envBadJSON : Env :=
  { envOK with unmarshalConfig := fun _ => .error "invalid character" }

/-- `envOK` with an unreachable PostgreSQL database: `db.Ping` fails. -/
def envPingFail : Env :=
  { envOK with dbPing := fun _ => some "connection refused" }

/-- A job store holding one job that has advanced to `Running`. -/
def storeRun : store.JobStoreState :=
  ⟨[(1, { id := 1, name := "build-123", phase := store.Phase.Running,
          history := [store.Phase.Created, store.Phase.Scheduled,
                      store.Phase.Running] })]⟩

namespace store

/-- The well-formedness invariant of a stored job record: its history is a
non-empty chain of transitions each accepted by the monotonic-phase check,
and the recorded phase is the last entry of the history. -/
def histInv (j : Job) : Prop :=
  ∃ a l, j.history = a :: l ∧ okFrom a l = true ∧ lastP a l = j.phase

end store

/-- `cfg0` with an empty Kubernetes namespace. -/
def cfgNoNS : Config :=
  { cfg0 with Kubernetes := { Kubeconfig := "", Namespace := "" } }

/-- `envOK` decoding the config file to `cfgNoNS`. -/
def envNoNS : Env :=
  { envOK with unmarshalConfig := fun _ => .ok cfgNoNS }

/-- The service value a successful boot under `envNoNS` constructs. -/
def serviceNoNS : werft.Service :=
  mkService cfgNoNS ⟨2⟩ ⟨"/var/werft/logs"⟩ ⟨⟨3⟩⟩ ⟨⟨execNamespace cfgNoNS⟩, ⟨0⟩, ⟨4⟩⟩ ""

theorem mkService_Cutter (cfg : Config) (g : ghinstallation.Transport)
    (ls : store.FileLogStore) (js : store.SQLJobStore) (ex : executor.Executor)
    (d : String) : (mkService cfg g ls js ex d).Cutter = logcutter.DefaultCutter := by
  unfold mkService
  split <;> rfl

theorem mkService_Logs (cfg : Config) (g : ghinstallation.Transport)
    (ls : store.FileLogStore) (js : store.SQLJobStore) (ex : executor.Executor)
    (d : String) : (mkService cfg g ls js ex d).Logs = store.Logs.fileBased ls := by
  unfold mkService
  split <;> rfl

theorem mkService_Jobs (cfg : Config) (g : ghinstallation.Transport)
    (ls : store.FileLogStore) (js : store.SQLJobStore) (ex : executor.Executor)
    (d : String) : (mkService cfg g ls js ex d).Jobs = store.Jobs.relational js := by
  unfold mkService
  split <;> rfl

theorem mkService_Executor (cfg : Config) (g : ghinstallation.Transport)
    (ls : store.FileLogStore) (js : store.SQLJobStore) (ex : executor.Executor)
    (d : String) : (mkService cfg g ls js ex d).Executor = ex := by
  unfold mkService
  split <;> rfl

theorem kubeAction_cases (cfg : Config) :
    kubeAction cfg = RunAction.kubeInCluster ∨ kubeAction cfg = RunAction.kubeFromFlags := by
  unfold kubeAction
  split
  · exact Or.inl rfl
  · exact Or.inr rfl

theorem runCmd_serving {env : Env} {args : List String} {t : List RunAction}
    {s : werft.Service} (h : runCmd env args = (t, RunOutcome.serving s)) :
    ∃ path fc cfg kubeConfig ghtr logStore db jobStore handle,
      args = [path] ∧
      env.readFile path = .ok fc ∧
      env.unmarshalConfig fc = .ok cfg ∧
      kubeConfigResult env cfg = .ok kubeConfig ∧
      env.newKeyFromFile cfg.GitHub.AppID cfg.GitHub.InstallationID
        cfg.GitHub.PrivateKeyPath = .ok ghtr ∧
      env.newFileLogStore cfg.Storage.LogStore = .ok logStore ∧
      env.sqlOpen cfg.Storage.JobStore = .ok db ∧
      env.dbPing db = none ∧
      env.newSQLJobStore db = .ok jobStore ∧
      env.newExecutor ⟨execNamespace cfg⟩ kubeConfig = .ok handle ∧
      s = mkService cfg ghtr logStore jobStore
            ⟨⟨execNamespace cfg⟩, kubeConfig, handle⟩ env.debugWebUIProxy ∧
      t = successTrace cfg := by
  match args with
  | [] => simp [runCmd] at h
  | _ :: _ :: _ => simp [runCmd] at h
  | [p] =>
    rw [runCmd] at h
    cases hrf : env.readFile p with
    | error e => simp [hrf] at h
    | ok fc =>
    simp only [hrf] at h
    cases hum : env.unmarshalConfig fc with
    | error e => simp [hum] at h
    | ok cfg =>
    simp only [hum] at h
    cases hkc : kubeConfigResult env cfg with
    | error e => simp [hkc] at h
    | ok kubeConfig =>
    simp only [hkc] at h
    cases hgh : env.newKeyFromFile cfg.GitHub.AppID cfg.GitHub.InstallationID
        cfg.GitHub.PrivateKeyPath with
    | error e => simp [hgh] at h
    | ok ghtr =>
    simp only [hgh] at h
    cases hls : env.newFileLogStore cfg.Storage.LogStore with
    | error e => simp [hls] at h
    | ok logStore =>
    simp only [hls] at h
    cases hdb : env.sqlOpen cfg.Storage.JobStore with
    | error e => simp [hdb] at h
    | ok db =>
    simp only [hdb] at h
    cases hpg : env.dbPing db with
    | some e => simp [hpg] at h
    | none =>
    simp only [hpg] at h
    cases hjs : env.newSQLJobStore db with
    | error e => simp [hjs] at h
    | ok jobStore =>
    simp only [hjs] at h
    cases hex : env.newExecutor ⟨execNamespace cfg⟩ kubeConfig with
    | error e => simp [hex] at h
    | ok handle =>
    simp only [hex] at h
    obtain ⟨ht, hs⟩ := Prod.mk.injEq .. ▸ h
    exact ⟨p, fc, cfg, kubeConfig, ghtr, logStore, db, jobStore, handle,
      rfl, hrf, hum, hkc, hgh, hls, hdb, hpg, hjs, hex,
      (RunOutcome.serving.injEq .. ▸ hs).symm, ht.symm⟩

theorem not_violates {a b : store.Phase}
    (h : store.violatesMonotonic a b = false) :
    a.rank ≤ b.rank ∧ (a.isTerminal = true → b = a) := by
  revert h
  cases a <;> cases b <;> decide

theorem okFrom_snoc {l : List store.Phase} {a p : store.Phase}
    (h : store.okFrom a l = true)
    (hp : store.violatesMonotonic (store.lastP a l) p = false) :
    store.okFrom a (l ++ [p]) = true := by
  induction l generalizing a with
  | nil =>
    simp only [store.lastP] at hp
    simp [store.okFrom, hp]
  | cons b t ih =>
    simp only [store.okFrom, Bool.and_eq_true] at h
    simp only [store.lastP] at hp
    simp only [List.cons_append, store.okFrom, Bool.and_eq_true]
    exact ⟨h.1, ih h.2 hp⟩

theorem okFrom_all_eq {l : List store.Phase} {a : store.Phase}
    (h : store.okFrom a l = true) (ht : a.isTerminal = true) :
    l.all (fun b => b == a) = true := by
  induction l generalizing a with
  | nil => rfl
  | cons b t ih =>
    simp only [store.okFrom, Bool.and_eq_true, Bool.not_eq_true'] at h
    have hba : b = a := (not_violates h.1).2 ht
    subst hba
    simp only [List.all_cons, Bool.and_eq_true, beq_self_eq_true, true_and]
    exact ih h.2 ht

theorem monoB_of_okFrom {l : List store.Phase} {a : store.Phase}
    (h : store.okFrom a l = true) : store.monoB (a :: l) = true := by
  induction l generalizing a with
  | nil => rfl
  | cons b t ih =>
    simp only [store.okFrom, Bool.and_eq_true, Bool.not_eq_true'] at h
    have hle : a.rank ≤ b.rank := (not_violates h.1).1
    simp only [store.monoB, Bool.and_eq_true, decide_eq_true_eq]
    exact ⟨hle, ih h.2⟩

theorem termUniqueB_of_okFrom {l : List store.Phase} {a : store.Phase}
    (h : store.okFrom a l = true) : store.termUniqueB (a :: l) = true := by
  induction l generalizing a with
  | nil => simp [store.termUniqueB]
  | cons b t ih =>
    simp only [store.okFrom, Bool.and_eq_true, Bool.not_eq_true'] at h
    have hrest := ih h.2
    simp only [store.termUniqueB, Bool.and_eq_true] at hrest ⊢
    refine ⟨?_, hrest⟩
    cases hterm : a.isTerminal with
    | false => rfl
    | true =>
      have hall : (b :: t).all (fun x => x == a) = true :=
        okFrom_all_eq (by simp [store.okFrom, h.1, h.2]) hterm
      simp [hall]


theorem lastP_snoc (p : store.Phase) (l : List store.Phase) (a : store.Phase) :
    store.lastP a (l ++ [p]) = p := by
  induction l generalizing a with
  | nil => rfl
  | cons b t ih => exact ih b

theorem get_set {s : store.JobStoreState} {id : Nat} {j0 j : store.Job}
    (h : s.get id = some j0) : (s.set id j).get id = some j := by
  rcases s with ⟨l⟩
  simp only [store.JobStoreState.get, store.JobStoreState.set] at h ⊢
  induction l with
  | nil => simp [List.find?] at h
  | cons p t ih =>
    cases hb : (p.1 == id) with
    | true => simp [List.find?, hb]
    | false =>
      simp only [List.find?, List.map_cons, hb, Bool.false_eq_true, if_false] at h ⊢
      exact ih h

theorem UpdateStatus_eq_notFound {s : store.JobStoreState} {id : Nat}
    {p : store.Phase} (h : s.get id = none) :
    store.UpdateStatus s id p = (store.UpdateResult.notFound, s) := by
  unfold store.UpdateStatus
  rw [h]

theorem UpdateStatus_eq_conflict {s : store.JobStoreState} {id : Nat}
    {p : store.Phase} {j0 : store.Job} (h : s.get id = some j0)
    (hv : store.violatesMonotonic j0.phase p = true) :
    store.UpdateStatus s id p = (store.UpdateResult.conflict, s) := by
  unfold store.UpdateStatus
  rw [h]
  simp [hv]

theorem UpdateStatus_eq_success {s : store.JobStoreState} {id : Nat}
    {p : store.Phase} {j0 : store.Job} (h : s.get id = some j0)
    (hv : store.violatesMonotonic j0.phase p = false) :
    store.UpdateStatus s id p =
      (store.UpdateResult.success,
       s.set id { j0 with phase := p, history := j0.history ++ [p] }) := by
  unfold store.UpdateStatus
  rw [h]
  simp [hv]

theorem updateStatus_histInv {s : store.JobStoreState} {id : Nat} {p : store.Phase}
    (h : ∀ j, s.get id = some j → store.histInv j) :
    ∀ j, ((store.UpdateStatus s id p).2).get id = some j → store.histInv j := by
  intro j hj
  cases hget : s.get id with
  | none =>
    rw [UpdateStatus_eq_notFound hget] at hj
    exact h j hj
  | some j0 =>
    cases hv : store.violatesMonotonic j0.phase p with
    | true =>
      rw [UpdateStatus_eq_conflict hget hv] at hj
      exact h j hj
    | false =>
      rw [UpdateStatus_eq_success hget hv] at hj
      rw [get_set (j := { j0 with phase := p, history := j0.history ++ [p] }) hget] at hj
      cases hj
      obtain ⟨a, l, hh, hok, hlast⟩ := h j0 hget
      refine ⟨a, l ++ [p], ?_, ?_, ?_⟩
      · simp [hh]
      · exact okFrom_snoc hok (by rw [hlast]; exact hv)
      · exact lastP_snoc p l a

theorem runUpdates_histInv {s : store.JobStoreState} {id : Nat}
    (reqs : List store.Phase) (h : ∀ j, s.get id = some j → store.histInv j) :
    ∀ j, ((store.runUpdates s id reqs).get id = some j) → store.histInv j := by
  induction reqs generalizing s with
  | nil => exact h
  | cons p rest ih =>
    intro j hj
    exact ih (updateStatus_histInv h) j hj

/-- Claim C4: for every job, the sequence of phases recorded over its
lifetime (the job's transition history under any sequence of requested
status updates accepted by the store) is non-decreasing under the order
`Created < Scheduled < Running < terminal`, and no second, distinct terminal
phase is ever reached: every terminal phase in the history is followed only
by itself, so the terminal phase reached, if any, is unique. -/
theorem c4_phase_monotonic (id : Nat) (nm : String) (reqs : List store.Phase)
    (j : store.Job)
    (h : (store.runUpdates (store.initialStore id nm) id reqs).get id = some j) :
    store.monoB j.history = true ∧ store.termUniqueB j.history = true := by
  have hget0 : (store.initialStore id nm).get id =
      some { id := id, name := nm, phase := store.Phase.Created,
             history := [store.Phase.Created] } := by
    simp [store.initialStore, store.JobStoreState.get, List.find?]
  have hinit : ∀ j0, (store.initialStore id nm).get id = some j0 → store.histInv j0 := by
    intro j0 h0
    rw [hget0] at h0
    cases h0
    exact ⟨store.Phase.Created, [], rfl, rfl, rfl⟩
  obtain ⟨a, l, hh, hok, -⟩ := runUpdates_histInv reqs hinit j h
  rw [hh]
  exact ⟨monoB_of_okFrom hok, termUniqueB_of_okFrom hok⟩

/-- Witness for C4 at a concrete run: the job advances
`Created, Scheduled, Running, Succeeded` and its recorded history is
monotone with a unique terminal phase. -/
theorem c4_phase_monotonic_witness :
    (store.runUpdates (store.initialStore 0 "build-123") 0
        [store.Phase.Scheduled, store.Phase.Running, store.Phase.Succeeded]).get 0 =
      some { id := 0, name := "build-123", phase := store.Phase.Succeeded,
             history := [store.Phase.Created, store.Phase.Scheduled,
                         store.Phase.Running, store.Phase.Succeeded] } ∧
    (store.monoB [store.Phase.Created, store.Phase.Scheduled, store.Phase.Running,
        store.Phase.Succeeded] = true ∧
     store.termUniqueB [store.Phase.Created, store.Phase.Scheduled, store.Phase.Running,
        store.Phase.Succeeded] = true) :=
  ⟨by decide,
   c4_phase_monotonic 0 "build-123"
     [store.Phase.Scheduled, store.Phase.Running, store.Phase.Succeeded]
     { id := 0, name := "build-123", phase := store.Phase.Succeeded,
       history := [store.Phase.Created, store.Phase.Scheduled,
                   store.Phase.Running, store.Phase.Succeeded] }
     (by decide)⟩

/-- Claim C5: for every job id and requested phase transition, `UpdateStatus`
rejects with `conflict` any transition that violates the monotonic-phase
invariant, leaving the store — and hence the stored phase — unchanged, rather
than silently applying it; the update is a single atomic step of the store
state. -/
theorem c5_update_conflict (s : store.JobStoreState) (id : Nat)
    (new : store.Phase) (j : store.Job) (hg : s.get id = some j)
    (hv : store.violatesMonotonic j.phase new = true) :
    store.UpdateStatus s id new = (store.UpdateResult.conflict, s) ∧
    ((store.UpdateStatus s id new).2).get id = some j := by
  have h1 := UpdateStatus_eq_conflict hg hv
  exact ⟨h1, by rw [h1]; exact hg⟩

/-- Witness for C5: asking a `Running` job to move back to `Created` is
rejected with `conflict` and the store is unchanged. -/
theorem c5_update_conflict_witness :
    storeRun.get 1 = some { id := 1, name := "build-123",
                            phase := store.Phase.Running,
                            history := [store.Phase.Created, store.Phase.Scheduled,
                                        store.Phase.Running] } ∧
    store.violatesMonotonic store.Phase.Running store.Phase.Created = true ∧
    store.UpdateStatus storeRun 1 store.Phase.Created =
      (store.UpdateResult.conflict, storeRun) :=
  ⟨by decide, by decide,
   (c5_update_conflict storeRun 1 store.Phase.Created
     { id := 1, name := "build-123", phase := store.Phase.Running,
       history := [store.Phase.Created, store.Phase.Scheduled,
                   store.Phase.Running] }
     (by decide) (by decide)).1⟩

/-- Claim C6: the log cutter is deterministic — invoking `DefaultCutter`
twice on an identical input line sequence produces identical segments
(identical boundaries and identical names).  In this embedding the cutter is
a pure function of the line sequence, so its output depends on nothing
else. -/
theorem c6_cutter_deterministic (l1 l2 : List String) (h : l1 = l2) :
    logcutter.DefaultCutter l1 = logcutter.DefaultCutter l2 := by
  rw [h]

/-- Witness for C6 at a concrete line sequence. -/
theorem c6_cutter_deterministic_witness :
    (["=== build ===", "compiling..."] : List String) =
      ["=== build ===", "compiling..."] ∧
    logcutter.DefaultCutter ["=== build ===", "compiling..."] =
      logcutter.DefaultCutter ["=== build ===", "compiling..."] :=
  ⟨rfl,
   c6_cutter_deterministic ["=== build ===", "compiling..."]
     ["=== build ===", "compiling..."] rfl⟩

/-- Claim C7: feeding the default cutter the lines
`=== prepare ===`, `cloning...`, `=== build ===`, `compiling...` yields
exactly two segments, `prepare` containing the single line `cloning...` and
`build` containing the single line `compiling...`; the boundary-marker lines
appear in no segment, being consumed at the segment-open points. -/
theorem c7_example_segments :
    logcutter.DefaultCutter
      ["=== prepare ===", "cloning...", "=== build ===", "compiling..."] =
      [("prepare", ["cloning..."]), ("build", ["compiling..."])] := by
  decide

/-- Claim C2: the log classifier configuration the orchestration service
uses is an explicit configuration value passed into the service at startup —
the `Cutter` field set by `runCmd` — and the service's classification is
fully determined by that field, with no implicit process-wide default
consulted. -/
theorem c2_explicit_cutter (env : Env) (args : List String) (t : List RunAction)
    (s : werft.Service) (h : runCmd env args = (t, RunOutcome.serving s)) :
    s.Cutter = logcutter.DefaultCutter ∧
    ∀ lines, s.cutLog lines = logcutter.DefaultCutter lines := by
  obtain ⟨p, fc, cfg, kc, g, ls, db, js, hd, -, -, -, -, -, -, -, -, -, -, hs, -⟩ :=
    runCmd_serving h
  subst hs
  constructor
  · exact mkService_Cutter cfg g ls js ⟨⟨execNamespace cfg⟩, kc, hd⟩ env.debugWebUIProxy
  · intro lines
    unfold werft.Service.cutLog
    rw [mkService_Cutter]

/-- Witness for C2 at a concrete successful boot. -/
theorem c2_explicit_cutter_witness :
    runCmd envOK ["werft.json"] = (successTrace cfg0, RunOutcome.serving serviceOK) ∧
    serviceOK.Cutter = logcutter.DefaultCutter :=
  ⟨rfl,
   (c2_explicit_cutter envOK ["werft.json"] (successTrace cfg0) serviceOK rfl).1⟩

theorem runCmd_backendKinds {env : Env} {args : List String} {t : List RunAction}
    {s : werft.Service} (h : runCmd env args = (t, RunOutcome.serving s)) :
    s.Logs.kind = store.StorageKind.fileBased ∧
    s.Jobs.kind = store.StorageKind.relational := by
  obtain ⟨p, fc, cfg, kc, g, ls, db, js, hd, -, -, -, -, -, -, -, -, -, -, hs, -⟩ :=
    runCmd_serving h
  subst hs
  rw [mkService_Logs, mkService_Jobs]
  exact ⟨rfl, rfl⟩

/-- Claim C3 counterexample: it is false that the configuration supplied
before the service starts selects which of the two backend variants each
store uses — no two configurations (or environments) can make a served
service differ in either store's backend kind, because `runCmd` always
builds the file-based log store and the relational job store. -/
theorem c3_counterexample :
    ¬ ∃ (env₁ : Env) (args₁ : List String) (t₁ : List RunAction)
        (s₁ : werft.Service) (env₂ : Env) (args₂ : List String)
        (t₂ : List RunAction) (s₂ : werft.Service),
      runCmd env₁ args₁ = (t₁, RunOutcome.serving s₁) ∧
      runCmd env₂ args₂ = (t₂, RunOutcome.serving s₂) ∧
      (s₁.Logs.kind ≠ s₂.Logs.kind ∨ s₁.Jobs.kind ≠ s₂.Jobs.kind) := by
  rintro ⟨e1, a1, t1, s1, e2, a2, t2, s2, h1, h2, hne | hne⟩
  · exact hne ((runCmd_backendKinds h1).1.trans (runCmd_backendKinds h2).1.symm)
  · exact hne ((runCmd_backendKinds h1).2.trans (runCmd_backendKinds h2).2.symm)

/-- Claim C3 as amended: the storage capability interface has a file-based
and a relational variant, but the backend of each store is fixed in the
code, not selected by configuration: every served service uses the
file-based variant for the log store and the relational variant for the job
store; the configuration supplies only the log path and the database
connection string. -/
theorem c3_fixed_backends (env : Env) (args : List String) (t : List RunAction)
    (s : werft.Service) (h : runCmd env args = (t, RunOutcome.serving s)) :
    s.Logs.kind = store.StorageKind.fileBased ∧
    s.Jobs.kind = store.StorageKind.relational :=
  runCmd_backendKinds h

/-- Witness for the amended C3 at a concrete successful boot. -/
theorem c3_fixed_backends_witness :
    runCmd envOK ["werft.json"] = (successTrace cfg0, RunOutcome.serving serviceOK) ∧
    (serviceOK.Logs.kind = store.StorageKind.fileBased ∧
     serviceOK.Jobs.kind = store.StorageKind.relational) :=
  ⟨rfl,
   c3_fixed_backends envOK ["werft.json"] (successTrace cfg0) serviceOK rfl⟩

/-- Claim C8: the namespace passed to the executor equals the configured
Kubernetes namespace when that value is non-empty, and equals `"default"`
when the configured namespace is the empty string. -/
theorem c8_executor_namespace (env : Env) (p fc : String) (cfg : Config)
    (t : List RunAction) (s : werft.Service)
    (hr : env.readFile p = Except.ok fc)
    (hu : env.unmarshalConfig fc = Except.ok cfg)
    (h : runCmd env [p] = (t, RunOutcome.serving s)) :
    (cfg.Kubernetes.Namespace ≠ "" →
      s.Executor.Config.Namespace = cfg.Kubernetes.Namespace) ∧
    (cfg.Kubernetes.Namespace = "" → s.Executor.Config.Namespace = "default") := by
  obtain ⟨p', fc', cfg', kc, g, ls, db, js, hd, hp, hr', hu', -, -, -, -, -, -, -, hs, -⟩ :=
    runCmd_serving h
  injection hp with h1 h2
  subst h1
  rw [hr] at hr'
  injection hr' with h3
  subst h3
  rw [hu] at hu'
  injection hu' with h4
  subst h4
  subst hs
  rw [mkService_Executor]
  refine ⟨fun hn => ?_, fun hn => ?_⟩
  · simp [execNamespace, hn]
  · simp [execNamespace, hn]

/-- Witness for C8, exercising both branches: under `cfg0` the configured
namespace `ci` is used, and under `cfgNoNS` the empty namespace falls back
to `default`. -/
theorem c8_executor_namespace_witness :
    (envOK.readFile "werft.json" = Except.ok "cfg-bytes" ∧
     envOK.unmarshalConfig "cfg-bytes" = Except.ok cfg0 ∧
     cfg0.Kubernetes.Namespace ≠ "" ∧
     serviceOK.Executor.Config.Namespace = cfg0.Kubernetes.Namespace) ∧
    (envNoNS.unmarshalConfig "cfg-bytes" = Except.ok cfgNoNS ∧
     cfgNoNS.Kubernetes.Namespace = "" ∧
     serviceNoNS.Executor.Config.Namespace = "default") :=
  ⟨⟨rfl, rfl, by decide,
    (c8_executor_namespace envOK "werft.json" "cfg-bytes" cfg0 (successTrace cfg0)
      serviceOK rfl rfl rfl).1 (by decide)⟩,
   ⟨rfl, rfl,
    (c8_executor_namespace envNoNS "werft.json" "cfg-bytes" cfgNoNS
      (successTrace cfgNoNS) serviceNoNS rfl rfl rfl).2 rfl⟩⟩

/-- Claim C9: the Kubernetes client configuration is taken from the
in-cluster environment exactly when the configured kubeconfig path is empty,
and is built from the named kubeconfig file otherwise; if building it fails,
the run command returns the error with a trace containing only the config
read, the decode and the kube step — no store or scheduler connection is
attempted. -/
theorem c9_kube_selection (env : Env) (p fc : String) (cfg : Config)
    (hr : env.readFile p = Except.ok fc)
    (hu : env.unmarshalConfig fc = Except.ok cfg) :
    (cfg.Kubernetes.Kubeconfig = "" →
      kubeConfigResult env cfg = env.inClusterConfig) ∧
    (cfg.Kubernetes.Kubeconfig ≠ "" →
      kubeConfigResult env cfg = env.buildConfigFromFlags cfg.Kubernetes.Kubeconfig) ∧
    (∀ e, kubeConfigResult env cfg = Except.error e →
      runCmd env [p] =
        ([RunAction.readConfigFile, RunAction.unmarshalConfig, kubeAction cfg],
         RunOutcome.error (RunError.external e))) := by
  refine ⟨fun hk => ?_, fun hk => ?_, fun e hke => ?_⟩
  · unfold kubeConfigResult
    rw [if_pos hk]
  · unfold kubeConfigResult
    rw [if_neg hk]
  · simp [runCmd, hr, hu, hke]

/-- Witness for C9: with an empty kubeconfig path the in-cluster
configuration is consulted, and its failure aborts the boot before any
store, GitHub or scheduler step. -/
theorem c9_kube_selection_witness :
    envKubeFail.readFile "werft.json" = Except.ok "cfg-bytes" ∧
    envKubeFail.unmarshalConfig "cfg-bytes" = Except.ok cfg0 ∧
    cfg0.Kubernetes.Kubeconfig = "" ∧
    kubeConfigResult envKubeFail cfg0 = envKubeFail.inClusterConfig ∧
    runCmd envKubeFail ["werft.json"] =
      ([RunAction.readConfigFile, RunAction.unmarshalConfig, kubeAction cfg0],
       RunOutcome.error (RunError.external "unable to load in-cluster configuration")) :=
  ⟨rfl, rfl, rfl,
   (c9_kube_selection envKubeFail "werft.json" "cfg-bytes" cfg0 rfl rfl).1 rfl,
   (c9_kube_selection envKubeFail "werft.json" "cfg-bytes" cfg0 rfl rfl).2.2
     "unable to load in-cluster configuration" rfl⟩

/-- Claim C10: the run command requires exactly one positional argument, and
an unreadable config file or undecodable config contents make it return the
error with a trace containing no external connection (GitHub, database,
Kubernetes) and no service start. -/
theorem c10_arg_and_config_errors (env : Env) :
    (∀ args : List String, args.length ≠ 1 →
      runCmd env args = ([], RunOutcome.error RunError.badArgCount)) ∧
    (∀ p e, env.readFile p = Except.error e →
      runCmd env [p] =
        ([RunAction.readConfigFile], RunOutcome.error (RunError.external e))) ∧
    (∀ p fc e, env.readFile p = Except.ok fc →
      env.unmarshalConfig fc = Except.error e →
      runCmd env [p] =
        ([RunAction.readConfigFile, RunAction.unmarshalConfig],
         RunOutcome.error (RunError.external e))) := by
  refine ⟨fun args hlen => ?_, fun p e h => ?_, fun p fc e h1 h2 => ?_⟩
  · match args with
    | [] => rfl
    | [p] => exact absurd rfl hlen
    | p :: q :: r => rfl
  · simp [runCmd, h]
  · simp [runCmd, h1, h2]

/-- Witness for C10, exercising the wrong-argument-count, unreadable-file
and invalid-JSON cases at concrete inputs. -/
theorem c10_arg_and_config_errors_witness :
    (([] : List String).length ≠ 1 ∧
     runCmd envOK [] = ([], RunOutcome.error RunError.badArgCount)) ∧
    (envReadFail.readFile "werft.json" = Except.error "no such file or directory" ∧
     runCmd envReadFail ["werft.json"] =
       ([RunAction.readConfigFile],
        RunOutcome.error (RunError.external "no such file or directory"))) ∧
    (envBadJSON.unmarshalConfig "cfg-bytes" = Except.error "invalid character" ∧
     runCmd envBadJSON ["werft.json"] =
       ([RunAction.readConfigFile, RunAction.unmarshalConfig],
        RunOutcome.error (RunError.external "invalid character"))) :=
  ⟨⟨by decide, (c10_arg_and_config_errors envOK).1 [] (by decide)⟩,
   ⟨rfl, (c10_arg_and_config_errors envReadFail).2.1 "werft.json"
      "no such file or directory" rfl⟩,
   ⟨rfl, (c10_arg_and_config_errors envBadJSON).2.2 "werft.json" "cfg-bytes"
      "invalid character" rfl rfl⟩⟩

/-- Claim C1: if connecting to the job store (opening or pinging the
PostgreSQL database) or to the cluster scheduler (building the Kubernetes
client configuration or the executor) fails during startup, the run command
returns that error and the service never begins serving traffic:
`Service.Start`, `StartWeb` and `StartGRPC` are absent from the trace. -/
theorem c1_boot_failure_not_serving (env : Env) (p fc : String) (cfg : Config)
    (e : String)
    (hr : env.readFile p = Except.ok fc)
    (hu : env.unmarshalConfig fc = Except.ok cfg)
    (hFail :
      kubeConfigResult env cfg = Except.error e ∨
      ∃ kc, kubeConfigResult env cfg = Except.ok kc ∧
        ∃ g, env.newKeyFromFile cfg.GitHub.AppID cfg.GitHub.InstallationID
            cfg.GitHub.PrivateKeyPath = Except.ok g ∧
          ∃ ls, env.newFileLogStore cfg.Storage.LogStore = Except.ok ls ∧
            (env.sqlOpen cfg.Storage.JobStore = Except.error e ∨
             ∃ db, env.sqlOpen cfg.Storage.JobStore = Except.ok db ∧
               (env.dbPing db = some e ∨
                (env.dbPing db = none ∧
                 ∃ js, env.newSQLJobStore db = Except.ok js ∧
                   env.newExecutor ⟨execNamespace cfg⟩ kc = Except.error e)))) :
    ∃ t, runCmd env [p] = (t, RunOutcome.error (RunError.external e)) ∧
      RunAction.serviceStart ∉ t ∧ RunAction.serviceStartWeb ∉ t ∧
      RunAction.serviceStartGRPC ∉ t := by
  have hka := kubeAction_cases cfg
  rcases hFail with hke | ⟨kc, hkc, g, hg, ls, hls, hsql⟩
  · exact ⟨[RunAction.readConfigFile, RunAction.unmarshalConfig, kubeAction cfg],
      by simp [runCmd, hr, hu, hke],
      by rcases hka with hk | hk <;> rw [hk] <;> decide,
      by rcases hka with hk | hk <;> rw [hk] <;> decide,
      by rcases hka with hk | hk <;> rw [hk] <;> decide⟩
  · rcases hsql with hso | ⟨db, hdb, hping⟩
    · exact ⟨[RunAction.readConfigFile, RunAction.unmarshalConfig, kubeAction cfg,
        RunAction.githubKey, RunAction.newFileLogStore, RunAction.sqlOpen],
        by simp [runCmd, hr, hu, hkc, hg, hls, hso],
        by rcases hka with hk | hk <;> rw [hk] <;> decide,
        by rcases hka with hk | hk <;> rw [hk] <;> decide,
        by rcases hka with hk | hk <;> rw [hk] <;> decide⟩
    · rcases hping with hpe | ⟨hpn, js, hjs, hex⟩
      · exact ⟨[RunAction.readConfigFile, RunAction.unmarshalConfig, kubeAction cfg,
          RunAction.githubKey, RunAction.newFileLogStore, RunAction.sqlOpen,
          RunAction.dbPing],
          by simp [runCmd, hr, hu, hkc, hg, hls, hdb, hpe],
          by rcases hka with hk | hk <;> rw [hk] <;> decide,
          by rcases hka with hk | hk <;> rw [hk] <;> decide,
          by rcases hka with hk | hk <;> rw [hk] <;> decide⟩
      · exact ⟨[RunAction.readConfigFile, RunAction.unmarshalConfig, kubeAction cfg,
          RunAction.githubKey, RunAction.newFileLogStore, RunAction.sqlOpen,
          RunAction.dbPing, RunAction.newSQLJobStore, RunAction.newExecutor],
          by simp [runCmd, hr, hu, hkc, hg, hls, hdb, hpn, hjs, hex],
          by rcases hka with hk | hk <;> rw [hk] <;> decide,
          by rcases hka with hk | hk <;> rw [hk] <;> decide,
          by rcases hka with hk | hk <;> rw [hk] <;> decide⟩

/-- Witness for C1: an unreachable database (failing `Ping`) aborts the boot
with that error and the service-start actions never occur. -/
theorem c1_boot_failure_not_serving_witness :
    envPingFail.dbPing ⟨3⟩ = some "connection refused" ∧
    ∃ t, runCmd envPingFail ["werft.json"] =
        (t, RunOutcome.error (RunError.external "connection refused")) ∧
      RunAction.serviceStart ∉ t ∧ RunAction.serviceStartWeb ∉ t ∧
      RunAction.serviceStartGRPC ∉ t :=
  ⟨rfl,
   c1_boot_failure_not_serving envPingFail "werft.json" "cfg-bytes" cfg0
     "connection refused" rfl rfl
     (Or.inr ⟨⟨0⟩, rfl, ⟨2⟩, rfl, ⟨"/var/werft/logs"⟩, rfl,
       Or.inr ⟨⟨3⟩, rfl, Or.inl rfl⟩⟩)⟩
